import Mathlib

/-!
Verification of the application-lifecycle backend (Express/MySQL):
a shallow embedding of the route handlers in `audit.js`, `client.js`,
`user.js` and `app.js`, together with proofs about the state machine,
the audit trail, and the identity-document validator.

Conventions of the embedding:
* The database is a pair of tables (`application_info` rows and
  `audit_log` rows), modelled as lists.
* Each mutating handler runs inside one MySQL transaction
  (`beginTransaction` … `commit`, with `rollback` on every early return
  and in the catch block).  We model the transaction by building the
  post-state as a draft and returning the ORIGINAL database on every
  failure path — exactly the observable behaviour of rollback.
* Infrastructure failures of the individual SQL statements (and of the
  commit) are modelled by a fault oracle `TxFaults`: a throwing
  statement lands in the JS catch block, which rolls back.
* `NOW()` timestamps are passed in as an explicit `now : Nat`.
* Joi request-schema validation is performed by the excluded HTTP layer
  before the handler bodies we embed (spec §1 places request-body schema
  validation out of scope); the identity-number patterns themselves are
  embedded separately for the validator claims.
-/

namespace AppBackend

/-- The `status` column of `application_info`
(`PENDING`, `APPROVED`, `REJECTED`, `CANCELLED`). -/
inductive Status where
  | PENDING
  | APPROVED
  | REJECTED
  | CANCELLED
deriving DecidableEq, Repr

/-- The `action` column of `audit_log`, per the INSERT statements in the
handlers: `SUBMIT`, `RESUBMIT`, `CANCEL`, `APPROVED`, `REJECTED`. -/
inductive AuditAction where
  | SUBMIT
  | RESUBMIT
  | CANCEL
  | APPROVED
  | REJECTED
deriving DecidableEq, Repr

/-- The operator recorded in an audit row: `user.js` writes the literal
strings `system` / `customer` into `operator_id`, while `client.js` and
`audit.js` write the numeric authenticated `user_id`. -/
inductive Actor where
  | system
  | customer
  | user (id : Nat)
deriving DecidableEq, Repr

/-- One row of `application_info` (columns as used by the SQL in the
handlers).  `user_id` and `birthday` are nullable: the anonymous
`user.js`/`app.js` submit route inserts neither. -/
structure Application where
  id : Nat
  user_id : Option Nat
  name : String
  gender : String
  birthday : Option String
  id_type : String
  id_number : String
  phone_number : String
  address : String
  id_front_photo_url : String
  id_back_photo_url : String
  status : Status
  comments : Option String
  created_at : Nat
  updated_at : Nat
deriving DecidableEq, Repr

/-- One row of `audit_log` as produced by the handlers' INSERT
statements (`application_id`, operator, `action`, `remarks`). -/
structure AuditEntry where
  application_id : Nat
  actor : Actor
  action : AuditAction
  remarks : Option String
deriving DecidableEq, Repr

/-- The database state: the `application_info` table and the
append-only `audit_log` table. -/
structure Db where
  apps : List Application
  log : List AuditEntry
deriving DecidableEq, Repr

/-- Fault oracle for one transaction: whether the first write statement,
the second write statement, or the commit throws.  A throw lands in the
handler's catch block, which calls `rollback`. -/
structure TxFaults where
  fail1 : Bool
  fail2 : Bool
  failCommit : Bool
deriving DecidableEq, Repr

/-- The fault-free oracle (all SQL statements succeed). -/
def noFaults : TxFaults := ⟨false, false, false⟩

/-- The distinguishable failure kinds surfaced by the handlers
(spec §7 taxonomy), as produced by the HTTP status codes and messages:
404 → `notFound`, ownership 403 → `forbidden`, status 403 →
`illegalTransition` carrying the current status, 400 →
`validationError` / `noEffectiveChange`, duplicate 409 →
`duplicateIdentity`, 500 → `storageFailure`. -/
inductive OpError where
  | notFound
  | forbidden
  | illegalTransition (current : Status)
  | validationError
  | noEffectiveChange
  | duplicateIdentity
  | storageFailure
deriving DecidableEq, Repr

/-- A handler's outcome as seen by the caller. -/
inductive Resp where
  | ok
  | err (e : OpError)
deriving DecidableEq, Repr

/-- `SELECT ... FROM application_info WHERE id = ?` (ids are unique,
so the first match is the row). -/
def findApp (db : Db) (appId : Nat) : Option Application :=
  db.apps.find? (fun a => a.id == appId)

/-- `UPDATE application_info SET ... WHERE id = ?`: rewrite the rows
whose `id` matches. -/
def updateWhere (db : Db) (appId : Nat) (f : Application → Application) : Db :=
  { db with apps := db.apps.map (fun a => if a.id == appId then f a else a) }

/-- `INSERT INTO audit_log ... VALUES (...)`. -/
def appendLog (db : Db) (e : AuditEntry) : Db :=
  { db with log := db.log ++ [e] }

/-- The review verdict accepted by `audit.js` `/operate`
(Joi: `action` valid values `APPROVED` / `REJECTED`). -/
inductive Verdict where
  | APPROVED
  | REJECTED
deriving DecidableEq, Repr

/-- The status stored by `/operate` for a verdict
(`SET status = ?` with `action`). -/
def verdictStatus : Verdict → Status
  | .APPROVED => .APPROVED
  | .REJECTED => .REJECTED

/-- The audit action logged by `/operate` for a verdict. -/
def verdictAction : Verdict → AuditAction
  | .APPROVED => .APPROVED
  | .REJECTED => .REJECTED

/-- JS `!comments || comments.trim() === ''`: the remark is absent,
empty, or whitespace-only.  (A string trims to the empty string exactly
when every character is whitespace, which is how we phrase the test.) -/
def blankComments : Option String → Bool
  | none => true
  | some s => s.data.all Char.isWhitespace

/-- JS `comments || null`: the empty string is falsy and is stored as
NULL; any other string is stored as itself. -/
def commentsOrNull : Option String → Option String
  | none => none
  | some s => if s == "" then none else some s

/-- Embeds `router.post('/operate')` in `audit.js` (auditor decide):
lock the row (`SELECT status ... FOR UPDATE`), re-read the status,
404 if absent, 403 `IllegalTransition` unless `PENDING`, 400 if a
`REJECTED` verdict has blank remarks, else `UPDATE` status/comments and
`INSERT` the audit row, then commit; every failure path rolls back. -/
def operate (fo : TxFaults) (now : Nat) (operatorId : Nat) (db : Db)
    (appId : Nat) (action : Verdict) (comments : Option String) : Resp × Db :=
  match findApp db appId with
  | none => (.err .notFound, db)
  | some app =>
    if app.status ≠ .PENDING then
      (.err (.illegalTransition app.status), db)
    else if action = .REJECTED ∧ blankComments comments then
      (.err .validationError, db)
    else if fo.fail1 then (.err .storageFailure, db)
    else
      let draft := updateWhere db appId (fun a =>
        { a with status := verdictStatus action,
                 comments := commentsOrNull comments,
                 updated_at := now })
      if fo.fail2 then (.err .storageFailure, db)
      else
        let draft := appendLog draft
          ⟨appId, .user operatorId, verdictAction action, commentsOrNull comments⟩
        if fo.failCommit then (.err .storageFailure, db)
        else (.ok, draft)

/-- Embeds `router.post('/application/cancel')` in `client.js`
(authenticated customer cancel): lock and re-read, 404 if absent,
403 `Forbidden` unless the caller owns the row, 403 `IllegalTransition`
unless the status is `PENDING` or `REJECTED`, else set `CANCELLED`,
log `CANCEL`, commit; every failure path rolls back. -/
def clientCancel (fo : TxFaults) (now : Nat) (userId : Nat) (db : Db)
    (appId : Nat) : Resp × Db :=
  match findApp db appId with
  | none => (.err .notFound, db)
  | some app =>
    if app.user_id ≠ some userId then (.err .forbidden, db)
    else if app.status ≠ .PENDING ∧ app.status ≠ .REJECTED then
      (.err (.illegalTransition app.status), db)
    else if fo.fail1 then (.err .storageFailure, db)
    else
      let draft := updateWhere db appId (fun a =>
        { a with status := .CANCELLED, updated_at := now })
      if fo.fail2 then (.err .storageFailure, db)
      else
        let draft := appendLog draft ⟨appId, .user userId, .CANCEL, some "客户主动取消申请"⟩
        if fo.failCommit then (.err .storageFailure, db)
        else (.ok, draft)

/-- Embeds `router.post('/application/cancel')` in `user.js`
(anonymous-route cancel): no ownership check; only `PENDING`
applications may be cancelled; logs operator `customer`. -/
def userCancel (fo : TxFaults) (now : Nat) (db : Db) (appId : Nat) : Resp × Db :=
  match findApp db appId with
  | none => (.err .notFound, db)
  | some app =>
    if app.status ≠ .PENDING then
      (.err (.illegalTransition app.status), db)
    else if fo.fail1 then (.err .storageFailure, db)
    else
      let draft := updateWhere db appId (fun a =>
        { a with status := .CANCELLED, updated_at := now })
      if fo.fail2 then (.err .storageFailure, db)
      else
        let draft := appendLog draft ⟨appId, .customer, .CANCEL, some "客户主动取消申请"⟩
        if fo.failCommit then (.err .storageFailure, db)
        else (.ok, draft)

/-- The resubmission patch accepted by `client.js`
`router.post('/application/update')`: all fields optional except
`application_id` (passed separately) and `phone_number`, which the Joi
schema marks `required()`. -/
structure UpdatePatch where
  name : Option String
  gender : Option String
  birthday : Option String
  phone_number : String
  address : Option String
  id_type : Option String
  id_number : Option String
  id_front_photo_url : Option String
  id_back_photo_url : Option String
deriving DecidableEq, Repr

/-- Field value after the handler's diff-and-update: a provided field is
written with its new value, an omitted field keeps the stored value (a
provided-but-identical field is omitted from the UPDATE, which stores
the same value). -/
def patched (cur : String) (p : Option String) : String := p.getD cur

/-- Whether a patch field counts as an effective modification in the
handler's `fieldMapping` loop: provided and different from the stored
value. -/
def fieldChanged (cur : String) (p : Option String) : Bool :=
  match p with
  | none => false
  | some v => v != cur

/-- Whether the patch produces at least one entry in `modifiedFields`
(the handler's `NoEffectiveChange` test), for a patch whose `birthday`
is absent. -/
def anyEffectiveChange (app : Application) (p : UpdatePatch) : Bool :=
  fieldChanged app.name p.name ||
  fieldChanged app.gender p.gender ||
  (p.phone_number != app.phone_number) ||
  fieldChanged app.address p.address ||
  fieldChanged app.id_type p.id_type ||
  fieldChanged app.id_number p.id_number ||
  fieldChanged app.id_front_photo_url p.id_front_photo_url ||
  fieldChanged app.id_back_photo_url p.id_back_photo_url

/-- Embeds `router.post('/application/update')` in `client.js`
(customer resubmit): lock and re-read, 404 if absent, `Forbidden`
unless owned by the caller, `IllegalTransition` unless `REJECTED`;
then the `fieldMapping` loop diffs the patch against the stored row.

The loop's `birthday` comparator calls `formatDate`, which is neither
defined nor imported anywhere in `client.js`; a patch that provides
`birthday` therefore raises a `ReferenceError` inside the `try` block,
which the catch handler turns into rollback + 500.  We model that path
as `storageFailure` (it fires before the `NoEffectiveChange` test and
before any UPDATE).

With no effective modification the handler rolls back with 400
(`NoEffectiveChange`); otherwise it UPDATEs the modified fields plus
`status = PENDING`, `comments = NULL`, `updated_at`, logs `RESUBMIT`,
and commits. -/
def clientUpdate (fo : TxFaults) (now : Nat) (userId : Nat) (db : Db)
    (appId : Nat) (p : UpdatePatch) : Resp × Db :=
  match findApp db appId with
  | none => (.err .notFound, db)
  | some app =>
    if app.user_id ≠ some userId then (.err .forbidden, db)
    else if app.status ≠ .REJECTED then
      (.err (.illegalTransition app.status), db)
    else if p.birthday.isSome then (.err .storageFailure, db)
    else if ¬ anyEffectiveChange app p then (.err .noEffectiveChange, db)
    else if fo.fail1 then (.err .storageFailure, db)
    else
      let draft := updateWhere db appId (fun a =>
        { a with
            name := patched a.name p.name,
            gender := patched a.gender p.gender,
            phone_number := p.phone_number,
            address := patched a.address p.address,
            id_type := patched a.id_type p.id_type,
            id_number := patched a.id_number p.id_number,
            id_front_photo_url := patched a.id_front_photo_url p.id_front_photo_url,
            id_back_photo_url := patched a.id_back_photo_url p.id_back_photo_url,
            status := .PENDING,
            comments := none,
            updated_at := now })
      if fo.fail2 then (.err .storageFailure, db)
      else
        let draft := appendLog draft ⟨appId, .user userId, .RESUBMIT, some "客户修改后重新提交"⟩
        if fo.failCommit then (.err .storageFailure, db)
        else (.ok, draft)

/-- The already-schema-validated field set inserted by the submit
handlers (`app.js` / `user.js` variant, which inserts neither `user_id`
nor `birthday`). -/
structure SubmitFields where
  name : String
  gender : String
  id_type : String
  id_number : String
  phone_number : String
  address : String
  id_front_photo_url : String
  id_back_photo_url : String
deriving DecidableEq, Repr

/-- Modelled from the spec: the uniqueness constraint behind the
`ER_DUP_ENTRY` error caught by the submit handlers lives in the
database schema, which is not among the source files; per the spec,
"identity-document number is globally unique across all non-cancelled
applications", so a submit conflicts exactly when some non-cancelled
row already carries the number. -/
def hasActiveDuplicate (db : Db) (idNumber : String) : Bool :=
  db.apps.any (fun a => a.id_number == idNumber && a.status != .CANCELLED)

/-- The row inserted by the submit handlers for a validated field set
(status defaults to `PENDING`, comments to NULL). -/
def newApplication (newId now : Nat) (f : SubmitFields) : Application :=
  { id := newId, user_id := none, name := f.name, gender := f.gender,
    birthday := none, id_type := f.id_type, id_number := f.id_number,
    phone_number := f.phone_number, address := f.address,
    id_front_photo_url := f.id_front_photo_url,
    id_back_photo_url := f.id_back_photo_url,
    status := .PENDING, comments := none,
    created_at := now, updated_at := now }

/-- Embeds `app.post('/api/application/submit')` in `app.js` (the same
handler body appears in `user.js`): inside one transaction, INSERT the
application row (a duplicate identity number raises `ER_DUP_ENTRY`,
surfaced as a 409 conflict after rollback), then INSERT the `SUBMIT`
audit row with operator `system`, then commit. -/
def submit (fo : TxFaults) (now newId : Nat) (db : Db) (f : SubmitFields) : Resp × Db :=
  if fo.fail1 then (.err .storageFailure, db)
  else if hasActiveDuplicate db f.id_number then (.err .duplicateIdentity, db)
  else
    let draft : Db := { db with apps := db.apps ++ [newApplication newId now f] }
    if fo.fail2 then (.err .storageFailure, db)
    else
      let draft := appendLog draft ⟨newId, .system, .SUBMIT, some "客户线上提交申请"⟩
      if fo.failCommit then (.err .storageFailure, db)
      else (.ok, draft)

/-- The application status that a given audit action documents:
`SUBMIT` and `RESUBMIT` leave the row `PENDING`, `CANCEL` leaves it
`CANCELLED`, and a verdict action stores itself. -/
def actionStatus : AuditAction → Status
  | .SUBMIT => .PENDING
  | .RESUBMIT => .PENDING
  | .CANCEL => .CANCELLED
  | .APPROVED => .APPROVED
  | .REJECTED => .REJECTED

/-! ## Identity-document validator

The resident-ID branch of the Joi `id_number` schema is the same
regular expression in all three submit routes (`user.js`, `client.js`,
`app.js`):

  `[1-9]\d5 (18|19|20)\d2 (0[1-9]|1[0-2]) (0[1-9]|[12]\d|3[01]) \d3 (\d|X|x)`

anchored on both sides.  Every alternative has a fixed width, so the
whole pattern is an 18-character positional test, which we embed
character by character. -/

/-- The supported `id_type` values: `居民身份证` (resident ID) and
`港澳台居民居住证` (HK/Macau/Taiwan resident permit). -/
inductive DocType where
  | residentId
  | permitId
deriving DecidableEq, Repr

/-- The validator's failure, carrying the document type (each branch of
the Joi switch has its own type-specific message). -/
inductive ValErr where
  | invalidFormat (t : DocType)
deriving DecidableEq, Repr

/-! The regex fragments, one definition per fragment:
`[1-9]` is a non-zero digit, `[1-9]\d5` the region code,
`(18|19|20)\d2` the year field, `(0[1-9]|1[0-2])` the month field,
`(0[1-9]|[12]\d|3[01])` the day field, `\d3` the sequence and
`(\d|X|x)` the check character. -/

/-- Regex `[1-9]`: a non-zero decimal digit. -/
def nonZeroDigit (c : Char) : Bool := decide ('1' ≤ c) && decide (c ≤ '9')

/-- Regex `[1-9]\d5` — the region code: a leading non-zero digit
followed by five digits. -/
def regionCodeOk (a b c d e f : Char) : Bool :=
  nonZeroDigit a && b.isDigit && c.isDigit && d.isDigit && e.isDigit && f.isDigit

/-- Regex `(18|19|20)\d2` — the year field: century `18`, `19` or `20`
followed by two digits. -/
def yearFieldOk (y0 y1 y2 y3 : Char) : Bool :=
  ((y0 == '1' && (y1 == '8' || y1 == '9')) || (y0 == '2' && y1 == '0')) &&
  y2.isDigit && y3.isDigit

/-- Regex `(0[1-9]|1[0-2])` — the month field: `01` through `12`. -/
def monthFieldOk (m0 m1 : Char) : Bool :=
  (m0 == '0' && nonZeroDigit m1) ||
  (m0 == '1' && (m1 == '0' || m1 == '1' || m1 == '2'))

/-- Regex `(0[1-9]|[12]\d|3[01])` — the day field: `01` through `31`,
independent of the month. -/
def dayFieldOk (d0 d1 : Char) : Bool :=
  (d0 == '0' && nonZeroDigit d1) ||
  ((d0 == '1' || d0 == '2') && d1.isDigit) ||
  (d0 == '3' && (d1 == '0' || d1 == '1'))

/-- Regex `\d3` — the sequence field: three digits. -/
def sequenceOk (a b c : Char) : Bool := a.isDigit && b.isDigit && c.isDigit

/-- Regex `(\d|X|x)` — the trailing check character: a digit or the
letter X, case-insensitive. -/
def checkCharOk (c : Char) : Bool := c.isDigit || c == 'X' || c == 'x'

/-- Embeds the resident-ID regular expression as a positional test on
the character list: each alternative of the regex is fixed-width and the
pattern is anchored, so it matches exactly the 18-character strings
whose fragments (defined above, one per regex fragment) all hold. -/
def residentIdChars : List Char → Bool
  | [c0, c1, c2, c3, c4, c5, y0, y1, y2, y3, m0, m1, d0, d1, q0, q1, q2, ck] =>
      regionCodeOk c0 c1 c2 c3 c4 c5 && yearFieldOk y0 y1 y2 y3 &&
      monthFieldOk m0 m1 && dayFieldOk d0 d1 && sequenceOk q0 q1 q2 &&
      checkCharOk ck
  | _ => false

/-- The resident-ID pattern on strings. -/
def residentIdValid (s : String) : Bool := residentIdChars s.data

/-- The resident-ID branch of the Joi switch: accept exactly the
strings matching the pattern, otherwise fail with `InvalidFormat`
carrying the document type. -/
def validateResidentId (s : String) : Except ValErr Unit :=
  if residentIdValid s then Except.ok () else Except.error (.invalidFormat .residentId)

/-- Numeric value of a decimal digit character. -/
def digitVal (c : Char) : Nat := c.toNat - 48

/-- Gregorian leap-year rule. -/
def isLeapYear (y : Nat) : Bool := (y % 4 == 0 && y % 100 != 0) || y % 400 == 0

/-- Days in a month of a given year. -/
def daysInMonth (y m : Nat) : Nat :=
  if m == 2 then (if isLeapYear y then 29 else 28)
  else if m == 4 || m == 6 || m == 9 || m == 11 then 30
  else 31

/-- A plausible calendar date: month `1`-`12` and a day that exists in
that month of that year. -/
def plausibleDate (y m d : Nat) : Bool :=
  1 ≤ m && m ≤ 12 && 1 ≤ d && d ≤ daysInMonth y m

/-- The claim's reading of the resident-ID validator: the same
18-character decomposition, but with the embedded birth date required
to be a plausible calendar date (not merely month `01`-`12` and day
`01`-`31` independently). -/
def residentIdPlausibleChars : List Char → Bool
  | [c0, c1, c2, c3, c4, c5, y0, y1, y2, y3, m0, m1, d0, d1, q0, q1, q2, ck] =>
      regionCodeOk c0 c1 c2 c3 c4 c5 &&
      (y0.isDigit && y1.isDigit && y2.isDigit && y3.isDigit) &&
      (m0.isDigit && m1.isDigit && d0.isDigit && d1.isDigit) &&
      ((y0 == '1' && (y1 == '8' || y1 == '9')) || (y0 == '2' && y1 == '0')) &&
      plausibleDate
        (1000 * digitVal y0 + 100 * digitVal y1 + 10 * digitVal y2 + digitVal y3)
        (10 * digitVal m0 + digitVal m1)
        (10 * digitVal d0 + digitVal d1) &&
      sequenceOk q0 q1 q2 &&
      checkCharOk ck
  | _ => false

/-- The claim's reading, on strings. -/
def residentIdPlausible (s : String) : Bool := residentIdPlausibleChars s.data

/-! ## Concrete fixtures used by witnesses and counterexamples -/

/-- A sample application row. -/
def exApp (i : Nat) (uid : Option Nat) (st : Status) (num : String) : Application :=
  { id := i, user_id := uid, name := "张三", gender := "男", birthday := none,
    id_type := "居民身份证", id_number := num,
    phone_number := "13800138000", address := "某省某市某路1号",
    id_front_photo_url := "https://blob.example/front.png",
    id_back_photo_url := "https://blob.example/back.png",
    status := st, comments := none, created_at := 1, updated_at := 1 }

/-- A database holding one `PENDING` application (id 1, owner 7). -/
def dbPending : Db := ⟨[exApp 1 (some 7) .PENDING "11010519900101001X"], []⟩

/-- A database holding one `APPROVED` application (id 1, owner 7). -/
def dbApproved : Db := ⟨[exApp 1 (some 7) .APPROVED "11010519900101001X"], []⟩

/-- A database holding one `REJECTED` application (id 1, owner 7),
with a stored birthday and reviewer comments. -/
def dbRejected : Db :=
  ⟨[{ exApp 1 (some 7) .REJECTED "11010519900101001X" with
        birthday := some "1950-01-01", comments := some "照片不清晰" }], []⟩

/-- A patch that resubmits the stored values unchanged (and does not
touch `birthday`). -/
def samePatch : UpdatePatch :=
  { name := some "张三", gender := none, birthday := none,
    phone_number := "13800138000", address := none, id_type := none,
    id_number := none, id_front_photo_url := none, id_back_photo_url := none }

/-! ## Helper lemmas -/

theorem find_update_list (l : List Application) (i : Nat) (f : Application → Application)
    (hid : ∀ a, (f a).id = a.id) :
    (l.map (fun a => if a.id == i then f a else a)).find? (fun a => a.id == i)
      = (l.find? (fun a => a.id == i)).map f := by
  induction l with
  | nil => rfl
  | cons a t ih =>
    simp only [List.map_cons]
    cases h : (a.id == i) with
    | true =>
      have hfa : ((f a).id == i) = true := by rw [hid a]; exact h
      rw [if_pos rfl]
      simp only [List.find?, hfa, h]
      rfl
    | false =>
      rw [if_neg (by simp)]
      simp only [List.find?, h]
      exact ih

/-- Looking up the locked row after the UPDATE yields the rewritten
row, provided the rewrite keeps the primary key. -/
theorem findApp_updateWhere (db : Db) (i : Nat) (f : Application → Application)
    (hid : ∀ a, (f a).id = a.id) :
    findApp (updateWhere db i f) i = (findApp db i).map f :=
  find_update_list db.apps i f hid

theorem findApp_appendLog (db : Db) (e : AuditEntry) (i : Nat) :
    findApp (appendLog db e) i = findApp db i := rfl

theorem log_appendLog (db : Db) (e : AuditEntry) :
    (appendLog db e).log = db.log ++ [e] := rfl

theorem log_updateWhere (db : Db) (i : Nat) (f : Application → Application) :
    (updateWhere db i f).log = db.log := rfl

/-- `/operate` on a non-`PENDING` application: rollback with
`IllegalTransition` carrying the current status, regardless of the
verdict, the remarks and any infrastructure faults. -/
theorem operate_not_pending (fo : TxFaults) (now opid : Nat) (db : Db) (i : Nat)
    (v : Verdict) (c : Option String) (app : Application)
    (hfind : findApp db i = some app) (hst : app.status ≠ .PENDING) :
    operate fo now opid db i v c = (.err (.illegalTransition app.status), db) := by
  unfold operate
  rw [hfind]
  simp [hst]

/-- `/operate` on a `PENDING` application with admissible remarks and
no faults: commit, with the status/comments UPDATE and the audit INSERT
both applied. -/
theorem operate_pending_ok (now opid : Nat) (db : Db) (i : Nat)
    (v : Verdict) (c : Option String) (app : Application)
    (hfind : findApp db i = some app) (hst : app.status = .PENDING)
    (hc : v = .REJECTED → blankComments c = false) :
    operate noFaults now opid db i v c =
      (.ok, appendLog (updateWhere db i (fun a =>
          { a with status := verdictStatus v, comments := commentsOrNull c,
                   updated_at := now }))
        ⟨i, .user opid, verdictAction v, commentsOrNull c⟩) := by
  unfold operate
  rw [hfind]
  have h1 : ¬ app.status ≠ Status.PENDING := by simp [hst]
  have h2 : ¬ (v = Verdict.REJECTED ∧ blankComments c = true) := by
    rintro ⟨hv, hb⟩
    rw [hc hv] at hb
    exact Bool.false_ne_true hb
  simp [h1, h2, noFaults]

/-- `/operate` blank-remark rejection: rollback with 400. -/
theorem operate_blank_reject (fo : TxFaults) (now opid : Nat) (db : Db) (i : Nat)
    (c : Option String) (app : Application)
    (hfind : findApp db i = some app) (hst : app.status = .PENDING)
    (hc : blankComments c = true) :
    operate fo now opid db i .REJECTED c = (.err .validationError, db) := by
  unfold operate
  rw [hfind]
  simp [hst, hc]

/-- `client.js` cancel, success path. -/
theorem clientCancel_ok (now uid : Nat) (db : Db) (i : Nat) (app : Application)
    (hfind : findApp db i = some app) (hown : app.user_id = some uid)
    (hst : app.status = .PENDING ∨ app.status = .REJECTED) :
    clientCancel noFaults now uid db i =
      (.ok, appendLog (updateWhere db i (fun a =>
          { a with status := .CANCELLED, updated_at := now }))
        ⟨i, .user uid, .CANCEL, some "客户主动取消申请"⟩) := by
  unfold clientCancel
  rw [hfind]
  have h1 : ¬ app.user_id ≠ some uid := by simp [hown]
  have h2 : ¬ (app.status ≠ Status.PENDING ∧ app.status ≠ Status.REJECTED) := by
    rcases hst with h | h <;> simp [h]
  simp [h1, h2, noFaults]

/-- `client.js` cancel from a terminal status: rollback with
`IllegalTransition`. -/
theorem clientCancel_illegal (fo : TxFaults) (now uid : Nat) (db : Db) (i : Nat)
    (app : Application) (hfind : findApp db i = some app)
    (hown : app.user_id = some uid)
    (hst : app.status ≠ .PENDING ∧ app.status ≠ .REJECTED) :
    clientCancel fo now uid db i = (.err (.illegalTransition app.status), db) := by
  unfold clientCancel
  rw [hfind]
  have h1 : ¬ app.user_id ≠ some uid := by simp [hown]
  simp [h1, hst]

/-- `client.js` cancel by a non-owner: rollback with `Forbidden`,
before the status is even considered. -/
theorem clientCancel_forbidden (fo : TxFaults) (now uid : Nat) (db : Db) (i : Nat)
    (app : Application) (hfind : findApp db i = some app)
    (hown : app.user_id ≠ some uid) :
    clientCancel fo now uid db i = (.err .forbidden, db) := by
  unfold clientCancel
  rw [hfind]
  simp [hown]

/-- `user.js` cancel, success path (only from `PENDING`). -/
theorem userCancel_ok (now : Nat) (db : Db) (i : Nat) (app : Application)
    (hfind : findApp db i = some app) (hst : app.status = .PENDING) :
    userCancel noFaults now db i =
      (.ok, appendLog (updateWhere db i (fun a =>
          { a with status := .CANCELLED, updated_at := now }))
        ⟨i, .customer, .CANCEL, some "客户主动取消申请"⟩) := by
  unfold userCancel
  rw [hfind]
  have h1 : ¬ app.status ≠ Status.PENDING := by simp [hst]
  simp [h1, noFaults]

/-- `user.js` cancel from any non-`PENDING` status: rollback with
`IllegalTransition`. -/
theorem userCancel_illegal (fo : TxFaults) (now : Nat) (db : Db) (i : Nat)
    (app : Application) (hfind : findApp db i = some app)
    (hst : app.status ≠ .PENDING) :
    userCancel fo now db i = (.err (.illegalTransition app.status), db) := by
  unfold userCancel
  rw [hfind]
  simp [hst]

/-- `client.js` update by a non-owner: rollback with `Forbidden`,
before the status is even considered. -/
theorem clientUpdate_forbidden (fo : TxFaults) (now uid : Nat) (db : Db) (i : Nat)
    (p : UpdatePatch) (app : Application) (hfind : findApp db i = some app)
    (hown : app.user_id ≠ some uid) :
    clientUpdate fo now uid db i p = (.err .forbidden, db) := by
  unfold clientUpdate
  rw [hfind]
  simp [hown]

/-! ## Claim theorems -/

/-- C2 (counterexample to the claim as stated): on a `PENDING`
application, `decide(REJECT)` with the non-empty remark consisting of a
single space fails with `ValidationError` instead of succeeding; and on
an `APPROVED` application, `decide(REJECT)` with missing remarks fails
with `IllegalTransition`, not `ValidationError` (the status gate runs
before the remark check). -/
theorem c2_reject_remarks_cex :
    (operate noFaults 9 3 dbPending 1 .REJECTED (some " ")).1 = .err .validationError ∧
    (operate noFaults 9 3 dbApproved 1 .REJECTED none).1
      = .err (.illegalTransition .APPROVED) :=
  ⟨by decide, by decide⟩

/-- C2 (amended): on a `PENDING` application, `decide(REJECT)` with
missing, empty or whitespace-only remarks fails with `ValidationError`
and leaves the database unchanged; with remarks containing a
non-whitespace character it succeeds, sets the status to `REJECTED`,
stores the remarks as the reviewer comments, and appends a `REJECTED`
audit entry carrying the remarks. -/
theorem c2_reject_remarks (db : Db) (i opid now : Nat) (app : Application)
    (c : Option String)
    (hfind : findApp db i = some app) (hst : app.status = .PENDING) :
    (blankComments c = true →
      operate noFaults now opid db i .REJECTED c = (.err .validationError, db)) ∧
    (∀ s, c = some s → blankComments c = false →
      (operate noFaults now opid db i .REJECTED c).1 = .ok ∧
      (operate noFaults now opid db i .REJECTED c).2.log
        = db.log ++ [⟨i, .user opid, .REJECTED, some s⟩] ∧
      findApp (operate noFaults now opid db i .REJECTED c).2 i
        = some { app with status := .REJECTED, comments := some s,
                          updated_at := now }) := by
  constructor
  · intro hb
    exact operate_blank_reject noFaults now opid db i c app hfind hst hb
  · rintro s rfl hb
    have hs : s ≠ "" := by
      intro h
      subst h
      simp [blankComments] at hb
    have hs2 : (s == "") = false := by simp [hs]
    have hco : commentsOrNull (some s) = some s := by simp [commentsOrNull, hs2]
    have hop := operate_pending_ok now opid db i .REJECTED (some s) app hfind hst
      (fun _ => hb)
    rw [hop]
    refine ⟨rfl, ?_, ?_⟩
    · show (appendLog _ _).log = _
      rw [log_appendLog, log_updateWhere, hco]
      rfl
    · show findApp (appendLog _ _) i = _
      rw [findApp_appendLog, findApp_updateWhere, hfind, hco]
      · rfl
      · exact fun a => rfl

/-- C2 witness: a concrete `PENDING` application rejected with a
substantive remark succeeds. -/
theorem c2_reject_remarks_witness :
    (operate noFaults 9 3 dbPending 1 .REJECTED (some "照片不清晰")).1 = .ok :=
  ((c2_reject_remarks dbPending 1 3 9
      (exApp 1 (some 7) .PENDING "11010519900101001X") (some "照片不清晰")
      (by decide) rfl).2 "照片不清晰" rfl (by decide)).1

/-- C4 (code bug): on a `REJECTED` application, a resubmission patch in
which every provided field equals the stored value but which also
provides `birthday` does NOT fail with `NoEffectiveChange`: the
handler's `birthday` comparator calls `formatDate`, which `client.js`
never defines or imports, so the request dies with a `ReferenceError`
(rolled back and surfaced as a 500 storage failure).  The same patch
without `birthday` behaves as the claim says, and a patch changing
`name` succeeds. -/
theorem c4_update_formatdate_bug :
    clientUpdate noFaults 9 7 dbRejected 1
        { samePatch with birthday := some "1950-01-01" }
      = (.err .storageFailure, dbRejected) ∧
    clientUpdate noFaults 9 7 dbRejected 1 samePatch
      = (.err .noEffectiveChange, dbRejected) ∧
    (clientUpdate noFaults 9 7 dbRejected 1 { samePatch with name := some "李四" }).1
      = .ok :=
  ⟨by decide, by decide, by decide⟩

/-- C5: cancellation by the owning customer succeeds exactly from
`PENDING` or `REJECTED` on the authenticated `client.js` route
(permissive policy) and exactly from `PENDING` on the `user.js` route
(strict policy); from `APPROVED` or `CANCELLED` both fail with
`IllegalTransition` carrying the current status and leave the database
unchanged. -/
theorem c5_cancel_policy (db : Db) (i uid now : Nat) (app : Application)
    (hfind : findApp db i = some app) (hown : app.user_id = some uid) :
    ((clientCancel noFaults now uid db i).1 = .ok ↔
      (app.status = .PENDING ∨ app.status = .REJECTED)) ∧
    (app.status = .APPROVED ∨ app.status = .CANCELLED →
      clientCancel noFaults now uid db i = (.err (.illegalTransition app.status), db)) ∧
    ((userCancel noFaults now db i).1 = .ok ↔ app.status = .PENDING) ∧
    (app.status = .APPROVED ∨ app.status = .CANCELLED →
      userCancel noFaults now db i = (.err (.illegalTransition app.status), db)) := by
  refine ⟨⟨?_, ?_⟩, ?_, ⟨?_, ?_⟩, ?_⟩
  · intro hok
    by_contra hno
    push_neg at hno
    rw [clientCancel_illegal noFaults now uid db i app hfind hown hno] at hok
    simp at hok
  · intro hall
    rw [clientCancel_ok now uid db i app hfind hown hall]
  · intro hterm
    refine clientCancel_illegal noFaults now uid db i app hfind hown ?_
    rcases hterm with h | h <;> simp [h]
  · intro hok
    by_contra hno
    rw [userCancel_illegal noFaults now db i app hfind hno] at hok
    simp at hok
  · intro hp
    rw [userCancel_ok now db i app hfind hp]
  · intro hterm
    refine userCancel_illegal noFaults now db i app hfind ?_
    rcases hterm with h | h <;> simp [h]

/-- C5 witness: the concrete `PENDING` application can be cancelled by
its owner on the client route, and the concrete `APPROVED` one cannot. -/
theorem c5_cancel_policy_witness :
    (clientCancel noFaults 9 7 dbPending 1).1 = .ok ∧
    userCancel noFaults 9 dbApproved 1
      = (.err (.illegalTransition .APPROVED), dbApproved) :=
  ⟨(c5_cancel_policy dbPending 1 7 9
      (exApp 1 (some 7) .PENDING "11010519900101001X") (by decide) rfl).1.mpr
      (Or.inl rfl),
   (c5_cancel_policy dbApproved 1 7 9
      (exApp 1 (some 7) .APPROVED "11010519900101001X") (by decide) rfl).2.2.2
      (Or.inl rfl)⟩

/-- C6: `decide` (either verdict, any remarks, any infrastructure
faults) on an application whose re-read status is not `PENDING` rolls
back with `IllegalTransition` carrying the current status: no status
change and no audit entry. -/
theorem c6_decide_requires_pending (fo : TxFaults) (db : Db) (i opid now : Nat)
    (app : Application) (v : Verdict) (c : Option String)
    (hfind : findApp db i = some app) (hst : app.status ≠ .PENDING) :
    operate fo now opid db i v c = (.err (.illegalTransition app.status), db) :=
  operate_not_pending fo now opid db i v c app hfind hst

/-- C6 witness: deciding the concrete `APPROVED` application fails with
`IllegalTransition APPROVED` and leaves the database unchanged. -/
theorem c6_decide_requires_pending_witness :
    operate noFaults 9 3 dbApproved 1 .APPROVED none
      = (.err (.illegalTransition .APPROVED), dbApproved) :=
  c6_decide_requires_pending noFaults dbApproved 1 3 9
    (exApp 1 (some 7) .APPROVED "11010519900101001X") .APPROVED none
    (by decide) (by decide)

/-- C7: a customer resubmit or cancel on an application they do not own
fails with `Forbidden` and leaves the database unchanged, whatever the
current status is (the ownership predicate runs before the transition
check, so even a status that would itself be illegal yields `Forbidden`);
`Forbidden` is a different error from every `IllegalTransition`. -/
theorem c7_ownership_forbidden (fo : TxFaults) (db : Db) (i uid now : Nat)
    (app : Application) (p : UpdatePatch)
    (hfind : findApp db i = some app) (hown : app.user_id ≠ some uid) :
    clientUpdate fo now uid db i p = (.err .forbidden, db) ∧
    clientCancel fo now uid db i = (.err .forbidden, db) ∧
    ∀ s : Status, OpError.forbidden ≠ OpError.illegalTransition s :=
  ⟨clientUpdate_forbidden fo now uid db i p app hfind hown,
   clientCancel_forbidden fo now uid db i app hfind hown,
   fun _ h => OpError.noConfusion h⟩

/-- C7 witness: user 8 cancelling user 7's `APPROVED` application gets
`Forbidden` (not `IllegalTransition`, although the status is terminal). -/
theorem c7_ownership_forbidden_witness :
    clientCancel noFaults 9 8 dbApproved 1 = (.err .forbidden, dbApproved) :=
  (c7_ownership_forbidden noFaults dbApproved 1 8 9
    (exApp 1 (some 7) .APPROVED "11010519900101001X") samePatch
    (by decide) (by decide)).2.1

/-- C10: a successful cancel (on either route) rewrites only `status`
(to `CANCELLED`) and `updated_at`; name, gender, birthday, identity
type and number, phone, address, both photo URLs, owner reference,
reviewer comments and the created timestamp are all untouched. -/
theorem c10_cancel_frame (db : Db) (i uid now : Nat) (app : Application)
    (hfind : findApp db i = some app) (hown : app.user_id = some uid)
    (hst : app.status = .PENDING ∨ app.status = .REJECTED) :
    (∃ app2, findApp (clientCancel noFaults now uid db i).2 i = some app2 ∧
      app2.status = .CANCELLED ∧ app2.updated_at = now ∧
      app2.name = app.name ∧ app2.gender = app.gender ∧
      app2.birthday = app.birthday ∧ app2.id_type = app.id_type ∧
      app2.id_number = app.id_number ∧ app2.phone_number = app.phone_number ∧
      app2.address = app.address ∧
      app2.id_front_photo_url = app.id_front_photo_url ∧
      app2.id_back_photo_url = app.id_back_photo_url ∧
      app2.user_id = app.user_id ∧ app2.comments = app.comments ∧
      app2.created_at = app.created_at) ∧
    (app.status = .PENDING →
      ∃ app2, findApp (userCancel noFaults now db i).2 i = some app2 ∧
        app2.status = .CANCELLED ∧ app2.updated_at = now ∧
        app2.name = app.name ∧ app2.gender = app.gender ∧
        app2.birthday = app.birthday ∧ app2.id_type = app.id_type ∧
        app2.id_number = app.id_number ∧ app2.phone_number = app.phone_number ∧
        app2.address = app.address ∧
        app2.id_front_photo_url = app.id_front_photo_url ∧
        app2.id_back_photo_url = app.id_back_photo_url ∧
        app2.user_id = app.user_id ∧ app2.comments = app.comments ∧
        app2.created_at = app.created_at) := by
  constructor
  · rw [clientCancel_ok now uid db i app hfind hown hst]
    refine ⟨{ app with status := .CANCELLED, updated_at := now }, ?_,
      rfl, rfl, rfl, rfl, rfl, rfl, rfl, rfl, rfl, rfl, rfl, rfl, rfl, rfl⟩
    show findApp (appendLog _ _) i = _
    rw [findApp_appendLog, findApp_updateWhere, hfind]
    · rfl
    · exact fun a => rfl
  · intro hp
    rw [userCancel_ok now db i app hfind hp]
    refine ⟨{ app with status := .CANCELLED, updated_at := now }, ?_,
      rfl, rfl, rfl, rfl, rfl, rfl, rfl, rfl, rfl, rfl, rfl, rfl, rfl, rfl⟩
    show findApp (appendLog _ _) i = _
    rw [findApp_appendLog, findApp_updateWhere, hfind]
    · rfl
    · exact fun a => rfl

/-- C10 witness: cancelling the concrete `PENDING` application leaves
every descriptive field intact. -/
theorem c10_cancel_frame_witness :
    ∃ app2, findApp (clientCancel noFaults 9 7 dbPending 1).2 1 = some app2 ∧
      app2.status = .CANCELLED ∧ app2.updated_at = 9 ∧ app2.name = "张三" := by
  obtain ⟨a2, h1, h2, h3, h4, _⟩ := (c10_cancel_frame dbPending 1 7 9
    (exApp 1 (some 7) .PENDING "11010519900101001X") (by decide) rfl
    (Or.inl rfl)).1
  exact ⟨a2, h1, h2, h3, h4⟩

/-- C1: each mutating operation (decide, cancel, resubmit, submit) is
all-or-nothing for every fault oracle and every input: either the
database is exactly the original (every early return and every thrown
SQL statement rolls the whole unit of work back), or the mutation is
applied together with exactly one appended audit entry whose action
matches the status now stored for the touched row — never a status
change without its audit entry, never an audit entry without its
status change. -/
theorem c1_atomic_audit_pairing :
    (∀ fo now opid db i v c, (operate fo now opid db i v c).2 = db ∨
      ∃ e app2, (operate fo now opid db i v c).2.log = db.log ++ [e] ∧
        e.application_id = i ∧
        findApp (operate fo now opid db i v c).2 i = some app2 ∧
        app2.status = actionStatus e.action) ∧
    (∀ fo now uid db i, (clientCancel fo now uid db i).2 = db ∨
      ∃ e app2, (clientCancel fo now uid db i).2.log = db.log ++ [e] ∧
        e.application_id = i ∧
        findApp (clientCancel fo now uid db i).2 i = some app2 ∧
        app2.status = actionStatus e.action) ∧
    (∀ fo now uid db i p, (clientUpdate fo now uid db i p).2 = db ∨
      ∃ e app2, (clientUpdate fo now uid db i p).2.log = db.log ++ [e] ∧
        e.application_id = i ∧
        findApp (clientUpdate fo now uid db i p).2 i = some app2 ∧
        app2.status = actionStatus e.action) ∧
    (∀ fo now newId db f, (submit fo now newId db f).2 = db ∨
      ∃ e app2, (submit fo now newId db f).2.apps = db.apps ++ [app2] ∧
        (submit fo now newId db f).2.log = db.log ++ [e] ∧
        e.application_id = app2.id ∧
        app2.status = actionStatus e.action) := by
  refine ⟨?_, ?_, ?_, ?_⟩
  · intro fo now opid db i v c
    unfold operate
    cases hfind : findApp db i with
    | none => exact Or.inl rfl
    | some app =>
      dsimp only
      by_cases h1 : app.status ≠ Status.PENDING
      · rw [if_pos h1]; exact Or.inl rfl
      · rw [if_neg h1]
        by_cases h2 : v = Verdict.REJECTED ∧ blankComments c = true
        · rw [if_pos h2]; exact Or.inl rfl
        · rw [if_neg h2]
          cases hf1 : fo.fail1 with
          | true => rw [if_pos rfl]; exact Or.inl rfl
          | false =>
            rw [if_neg (by simp)]
            cases hf2 : fo.fail2 with
            | true => rw [if_pos rfl]; exact Or.inl rfl
            | false =>
              rw [if_neg (by simp)]
              cases hfc : fo.failCommit with
              | true => rw [if_pos rfl]; exact Or.inl rfl
              | false =>
                rw [if_neg (by simp)]
                refine Or.inr ⟨⟨i, .user opid, verdictAction v, commentsOrNull c⟩,
                  { app with status := verdictStatus v,
                             comments := commentsOrNull c, updated_at := now },
                  rfl, rfl, ?_, by cases v <;> rfl⟩
                show findApp (appendLog _ _) i = _
                rw [findApp_appendLog, findApp_updateWhere, hfind]
                · rfl
                · exact fun a => rfl
  · intro fo now uid db i
    unfold clientCancel
    cases hfind : findApp db i with
    | none => exact Or.inl rfl
    | some app =>
      dsimp only
      by_cases h1 : app.user_id ≠ some uid
      · rw [if_pos h1]; exact Or.inl rfl
      · rw [if_neg h1]
        by_cases h2 : app.status ≠ Status.PENDING ∧ app.status ≠ Status.REJECTED
        · rw [if_pos h2]; exact Or.inl rfl
        · rw [if_neg h2]
          cases hf1 : fo.fail1 with
          | true => rw [if_pos rfl]; exact Or.inl rfl
          | false =>
            rw [if_neg (by simp)]
            cases hf2 : fo.fail2 with
            | true => rw [if_pos rfl]; exact Or.inl rfl
            | false =>
              rw [if_neg (by simp)]
              cases hfc : fo.failCommit with
              | true => rw [if_pos rfl]; exact Or.inl rfl
              | false =>
                rw [if_neg (by simp)]
                refine Or.inr ⟨⟨i, .user uid, .CANCEL, some "客户主动取消申请"⟩,
                  { app with status := .CANCELLED, updated_at := now },
                  rfl, rfl, ?_, rfl⟩
                show findApp (appendLog _ _) i = _
                rw [findApp_appendLog, findApp_updateWhere, hfind]
                · rfl
                · exact fun a => rfl
  · intro fo now uid db i p
    unfold clientUpdate
    cases hfind : findApp db i with
    | none => exact Or.inl rfl
    | some app =>
      dsimp only
      by_cases h1 : app.user_id ≠ some uid
      · rw [if_pos h1]; exact Or.inl rfl
      · rw [if_neg h1]
        by_cases h2 : app.status ≠ Status.REJECTED
        · rw [if_pos h2]; exact Or.inl rfl
        · rw [if_neg h2]
          by_cases h3 : p.birthday.isSome = true
          · rw [if_pos h3]; exact Or.inl rfl
          · rw [if_neg h3]
            by_cases h4 : ¬ anyEffectiveChange app p = true
            · rw [if_pos h4]; exact Or.inl rfl
            · rw [if_neg h4]
              cases hf1 : fo.fail1 with
              | true => rw [if_pos rfl]; exact Or.inl rfl
              | false =>
                rw [if_neg (by simp)]
                cases hf2 : fo.fail2 with
                | true => rw [if_pos rfl]; exact Or.inl rfl
                | false =>
                  rw [if_neg (by simp)]
                  cases hfc : fo.failCommit with
                  | true => rw [if_pos rfl]; exact Or.inl rfl
                  | false =>
                    rw [if_neg (by simp)]
                    refine Or.inr ⟨⟨i, .user uid, .RESUBMIT, some "客户修改后重新提交"⟩,
                      { app with
                          name := patched app.name p.name,
                          gender := patched app.gender p.gender,
                          phone_number := p.phone_number,
                          address := patched app.address p.address,
                          id_type := patched app.id_type p.id_type,
                          id_number := patched app.id_number p.id_number,
                          id_front_photo_url :=
                            patched app.id_front_photo_url p.id_front_photo_url,
                          id_back_photo_url :=
                            patched app.id_back_photo_url p.id_back_photo_url,
                          status := .PENDING, comments := none, updated_at := now },
                      rfl, rfl, ?_, rfl⟩
                    show findApp (appendLog _ _) i = _
                    rw [findApp_appendLog, findApp_updateWhere, hfind]
                    · rfl
                    · exact fun a => rfl
  · intro fo now newId db f
    unfold submit
    cases hf1 : fo.fail1 with
    | true => rw [if_pos rfl]; exact Or.inl rfl
    | false =>
      rw [if_neg (by simp)]
      by_cases hdup : hasActiveDuplicate db f.id_number = true
      · rw [if_pos hdup]; exact Or.inl rfl
      · rw [if_neg hdup]
        dsimp only
        cases hf2 : fo.fail2 with
        | true => rw [if_pos rfl]; exact Or.inl rfl
        | false =>
          rw [if_neg (by simp)]
          cases hfc : fo.failCommit with
          | true => rw [if_pos rfl]; exact Or.inl rfl
          | false =>
            rw [if_neg (by simp)]
            exact Or.inr ⟨⟨newId, .system, .SUBMIT, some "客户线上提交申请"⟩,
              newApplication newId now f, rfl, rfl, rfl, rfl⟩

/-- C3: submitting while a non-cancelled application carries the same
identity number fails with `DuplicateIdentity` (a conflict) and inserts
nothing; once the only active holder of the number is cancelled by its
owner, a fresh submit with the same number succeeds. -/
theorem c3_duplicate_identity (db : Db) (f : SubmitFields) :
    (hasActiveDuplicate db f.id_number = true →
      ∀ now newId, submit noFaults now newId db f = (.err .duplicateIdentity, db)) ∧
    (∀ i app uid now now2 newId,
      findApp db i = some app → app.user_id = some uid →
      (app.status = .PENDING ∨ app.status = .REJECTED) →
      (∀ b ∈ db.apps, b.id_number = f.id_number → b.status ≠ .CANCELLED → b.id = i) →
      (clientCancel noFaults now uid db i).1 = .ok ∧
      (submit noFaults now2 newId (clientCancel noFaults now uid db i).2 f).1 = .ok) := by
  constructor
  · intro hdup now newId
    unfold submit
    simp [noFaults, hdup]
  · intro i app uid now now2 newId hfind hown hst honly
    rw [clientCancel_ok now uid db i app hfind hown hst]
    refine ⟨rfl, ?_⟩
    show (submit noFaults now2 newId (appendLog (updateWhere db i _) _) f).1 = .ok
    have hnd : hasActiveDuplicate
        (appendLog (updateWhere db i (fun a =>
          { a with status := .CANCELLED, updated_at := now }))
          ⟨i, .user uid, .CANCEL, some "客户主动取消申请"⟩) f.id_number = false := by
      unfold hasActiveDuplicate appendLog updateWhere
      rw [List.any_eq_false]
      intro b2 hb2
      simp only [List.mem_map] at hb2
      obtain ⟨b, hb, hbeq⟩ := hb2
      by_cases hbid : (b.id == i) = true
      · rw [if_pos hbid] at hbeq
        subst hbeq
        simp
      · rw [if_neg hbid] at hbeq
        subst hbeq
        intro hcontr
        simp only [Bool.and_eq_true, beq_iff_eq, bne_iff_ne, ne_eq] at hcontr
        exact hbid (by simp [honly b hb hcontr.1 hcontr.2])
    unfold submit
    simp [noFaults, hnd]

/-- C3 witness: a second submit with the live number conflicts; after
the owner cancels, the same number submits successfully. -/
theorem c3_duplicate_identity_witness :
    submit noFaults 5 2 dbPending
        (SubmitFields.mk "李四" "女" "居民身份证" "11010519900101001X"
          "13900139000" "某省某市某街2号" "https://blob.example/f2.png"
          "https://blob.example/b2.png")
      = (.err .duplicateIdentity, dbPending) ∧
    (submit noFaults 6 3 (clientCancel noFaults 5 7 dbPending 1).2
        (SubmitFields.mk "李四" "女" "居民身份证" "11010519900101001X"
          "13900139000" "某省某市某街2号" "https://blob.example/f2.png"
          "https://blob.example/b2.png")).1 = .ok :=
  ⟨(c3_duplicate_identity dbPending _).1 (by decide) 5 2,
   ((c3_duplicate_identity dbPending _).2 1
      (exApp 1 (some 7) .PENDING "11010519900101001X") 7 5 6 3
      (by decide) rfl (Or.inl rfl) (by decide)).2⟩

/-- C9: two decide requests against the same `PENDING` application are
serialized by the exclusive row lock, modelled as sequential
composition; whichever runs first succeeds (given admissible remarks),
and the second — re-reading the status after acquiring the lock —
observes the stored verdict status, fails with `IllegalTransition`, and
changes nothing, so exactly one audit entry is appended in total. -/
theorem c9_serialized_decides (db : Db) (i op1 op2 now1 now2 : Nat)
    (app : Application) (v1 v2 : Verdict) (c1 c2 : Option String)
    (hfind : findApp db i = some app) (hst : app.status = .PENDING)
    (hc1 : v1 = .REJECTED → blankComments c1 = false) :
    (operate noFaults now1 op1 db i v1 c1).1 = .ok ∧
    operate noFaults now2 op2 (operate noFaults now1 op1 db i v1 c1).2 i v2 c2
      = (.err (.illegalTransition (verdictStatus v1)),
         (operate noFaults now1 op1 db i v1 c1).2) ∧
    (operate noFaults now1 op1 db i v1 c1).2.log
      = db.log ++ [⟨i, .user op1, verdictAction v1, commentsOrNull c1⟩] := by
  have hop := operate_pending_ok now1 op1 db i v1 c1 app hfind hst hc1
  refine ⟨by rw [hop], ?_, by rw [hop]; rfl⟩
  rw [hop]
  have hfind2 : findApp (operate noFaults now1 op1 db i v1 c1).2 i
      = some { app with status := verdictStatus v1,
                        comments := commentsOrNull c1, updated_at := now1 } := by
    rw [hop]
    show findApp (appendLog _ _) i = _
    rw [findApp_appendLog, findApp_updateWhere, hfind]
    · rfl
    · exact fun a => rfl
  rw [hop] at hfind2
  exact operate_not_pending noFaults now2 op2 _ i v2 c2 _ hfind2
    (by cases v1 <;> simp [verdictStatus])

/-- C9 witness: approve twice on the concrete `PENDING` application:
the first succeeds and the second fails with `IllegalTransition`. -/
theorem c9_serialized_decides_witness :
    (operate noFaults 5 3 dbPending 1 .APPROVED none).1 = .ok ∧
    (operate noFaults 6 4 (operate noFaults 5 3 dbPending 1 .APPROVED none).2
        1 .APPROVED none).1 = .err (.illegalTransition .APPROVED) := by
  obtain ⟨h1, h2, _⟩ := c9_serialized_decides dbPending 1 3 4 5 6
    (exApp 1 (some 7) .PENDING "11010519900101001X") .APPROVED .APPROVED
    none none (by decide) rfl (fun h => by cases h)
  refine ⟨h1, ?_⟩
  rw [h2]
  rfl

/-- C8 (counterexample to the claim as stated): the validator accepts
`11010519900231001X`, whose birth-date field is 1990-02-31 — not a
plausible calendar date.  The regex checks month `01`-`12` and day
`01`-`31` independently, not calendar plausibility. -/
theorem c8_resident_id_cex :
    residentIdValid "11010519900231001X" = true ∧
    residentIdPlausible "11010519900231001X" = false :=
  ⟨by decide, by decide⟩

/-- C8 (amended): the validator accepts a string exactly when it is 18
characters decomposing into a region code (non-zero digit plus five
digits), a year field with century `18`/`19`/`20`, a month field
`01`-`12`, a day field `01`-`31`, three sequence digits and a trailing
check character (digit or `X`/`x`); every other string is rejected with
`InvalidFormat` carrying the resident-ID document type. -/
theorem c8_resident_id_amended (s : String) :
    (validateResidentId s = Except.ok () ↔
      ∃ c0 c1 c2 c3 c4 c5 y0 y1 y2 y3 m0 m1 d0 d1 q0 q1 q2 ck,
        s.data = [c0, c1, c2, c3, c4, c5, y0, y1, y2, y3,
                  m0, m1, d0, d1, q0, q1, q2, ck] ∧
        regionCodeOk c0 c1 c2 c3 c4 c5 = true ∧
        yearFieldOk y0 y1 y2 y3 = true ∧
        monthFieldOk m0 m1 = true ∧
        dayFieldOk d0 d1 = true ∧
        sequenceOk q0 q1 q2 = true ∧
        checkCharOk ck = true) ∧
    (validateResidentId s = Except.ok () ∨
      validateResidentId s = Except.error (.invalidFormat .residentId)) := by
  have hiff : residentIdValid s = true ↔
      (∃ c0 c1 c2 c3 c4 c5 y0 y1 y2 y3 m0 m1 d0 d1 q0 q1 q2 ck,
        s.data = [c0, c1, c2, c3, c4, c5, y0, y1, y2, y3,
                  m0, m1, d0, d1, q0, q1, q2, ck] ∧
        regionCodeOk c0 c1 c2 c3 c4 c5 = true ∧
        yearFieldOk y0 y1 y2 y3 = true ∧
        monthFieldOk m0 m1 = true ∧
        dayFieldOk d0 d1 = true ∧
        sequenceOk q0 q1 q2 = true ∧
        checkCharOk ck = true) := by
    unfold residentIdValid
    constructor
    · intro h
      unfold residentIdChars at h
      split at h
      next c0 c1 c2 c3 c4 c5 y0 y1 y2 y3 m0 m1 d0 d1 q0 q1 q2 ck heq =>
        simp only [Bool.and_eq_true] at h
        obtain ⟨⟨⟨⟨⟨hr, hy⟩, hm⟩, hd⟩, hq⟩, hk⟩ := h
        exact ⟨c0, c1, c2, c3, c4, c5, y0, y1, y2, y3, m0, m1, d0, d1,
          q0, q1, q2, ck, heq, hr, hy, hm, hd, hq, hk⟩
      next => exact absurd h (by simp)
    · rintro ⟨c0, c1, c2, c3, c4, c5, y0, y1, y2, y3, m0, m1, d0, d1,
        q0, q1, q2, ck, hl, h1, h2, h3, h4, h5, h6⟩
      rw [hl]
      simp only [residentIdChars, Bool.and_eq_true]
      exact ⟨⟨⟨⟨⟨h1, h2⟩, h3⟩, h4⟩, h5⟩, h6⟩
  constructor
  · constructor
    · intro hok
      by_cases h : residentIdValid s = true
      · exact hiff.mp h
      · rw [validateResidentId, if_neg h] at hok
        exact absurd hok (by simp)
    · intro hex
      rw [validateResidentId, if_pos (hiff.mpr hex)]
  · by_cases h : residentIdValid s = true
    · exact Or.inl (by rw [validateResidentId, if_pos h])
    · exact Or.inr (by rw [validateResidentId, if_neg h])

end AppBackend
